import Mathlib

/-
  Shallow embedding of src/src/jb_emr_stepconcurrencylevel/handlers.py:
  CRUD handlers for a CloudFormation resource managing the
  StepConcurrencyLevel attribute of an EMR cluster.

  Each handler is modelled as a pure function taking the results of the
  remote EMR calls it may issue (describe_cluster, modify_cluster,
  add_tags, remove_tags) as explicit inputs, and returning the outcome
  together with the list of EMR calls actually issued, in order.
-/

namespace EmrStepConcurrency

/-- A key-value tag attached to an EMR cluster, one element of
response["Cluster"]["Tags"]. -/
structure Tag where
  key : String
  value : String
  deriving DecidableEq

/-- The facts extracted from a describe_cluster response: the tag list and
the current StepConcurrencyLevel of the cluster. -/
structure Cluster where
  tags : List Tag
  stepConcurrencyLevel : Int
  deriving DecidableEq

/-- A Python value that may sit in the StepConcurrencyLevel field of the
declared model: either already an integer or a string, as the handlers
coerce it with int() before validating. -/
inductive PyVal where
  | int (n : Int)
  | str (s : String)
  deriving DecidableEq

/-- The ResourceModel of models.py: ClusterId, StepConcurrencyLevel and the
optional UID field (None when never set). -/
structure ResourceModel where
  ClusterId : String
  StepConcurrencyLevel : PyVal
  UID : Option String
  deriving DecidableEq

/-- TYPE_NAME constant of handlers.py. -/
def TYPE_NAME : String := "JB::EMR::StepConcurrencyLevel"

/-- One remote EMR API call, as issued by the handlers. -/
inductive EmrCall where
  | describeCluster (clusterId : String)
  | modifyCluster (clusterId : String) (stepConcurrencyLevel : Int)
  | addTags (resourceId : String) (tags : List Tag)
  | removeTags (resourceId : String) (tagKeys : List String)
  deriving DecidableEq

/-- Whether a call mutates remote state: every call except describe_cluster. -/
def isMutating : EmrCall → Bool
  | .describeCluster _ => false
  | _ => true

/-- OperationStatus values of the cloudformation-cli-python-lib contract. -/
inductive OperationStatus where
  | IN_PROGRESS
  | SUCCESS
  | FAILED
  deriving DecidableEq

/-- A ProgressEvent as returned by a handler: status plus optional model. -/
structure ProgressEvent where
  status : OperationStatus
  resourceModel : Option ResourceModel
  deriving DecidableEq

/-- The structured handler exceptions of cloudformation-cli-python-lib that
the handlers raise. -/
inductive HandlerError where
  | alreadyExists (typeName : String) (identifier : String)
  | invalidRequest (message : String)
  | notFound (typeName : String) (identifier : String)
  | internalFailure (message : String)
  deriving DecidableEq

/-- Outcome of one handler invocation: a returned ProgressEvent, a raised
structured handler exception, or a raw uncaught Python exception (for
example a describe failure outside the try block, or a ValueError from
int()). -/
inductive Outcome where
  | ok (event : ProgressEvent)
  | handlerErr (e : HandlerError)
  | rawError (message : String)
  deriving DecidableEq

/-- Whether an outcome is the InvalidRequest handler error. -/
def Outcome.isInvalidRequest : Outcome → Bool
  | .handlerErr (.invalidRequest _) => true
  | _ => false

/-- Whether an outcome is the InternalFailure handler error. -/
def Outcome.isInternalFailure : Outcome → Bool
  | .handlerErr (.internalFailure _) => true
  | _ => false

/-- Whether an outcome is a validation or reconciliation rejection:
AlreadyExists, InvalidRequest or NotFound. -/
def Outcome.isRejection : Outcome → Bool
  | .handlerErr (.alreadyExists _ _) => true
  | .handlerErr (.invalidRequest _) => true
  | .handlerErr (.notFound _ _) => true
  | _ => false

/-- The tag scan loop inside get_uid: return the value of the first tag
whose key equals "StepConcurrencyUID", else None. -/
def findConcurrencyTag : List Tag → Option String
  | [] => none
  | t :: ts => if t.key = "StepConcurrencyUID" then some t.value else findConcurrencyTag ts

/-- get_uid of handlers.py over an explicit describe_cluster result: a
describe failure propagates, otherwise the tag list is scanned. -/
def get_uid (describeRes : Except String Cluster) : Except String (Option String) :=
  match describeRes with
  | .error e => .error e
  | .ok response => .ok (findConcurrencyTag response.tags)

/-- get_concurrency_level of handlers.py over an explicit describe_cluster
result. -/
def get_concurrency_level (describeRes : Except String Cluster) : Except String Int :=
  match describeRes with
  | .error e => .error e
  | .ok response => .ok response.stepConcurrencyLevel

/-- Digit accumulator for the model of the Python int() builtin applied to a
string: consumes decimal digits, failing on any other character. -/
def digitsVal (acc : Nat) : List Char → Option Nat
  | [] => some acc
  | c :: cs => if c.isDigit then digitsVal (10 * acc + (c.toNat - 48)) cs else none

/-- Model of the Python int() builtin on a string: an optional sign followed
by a nonempty run of decimal digits parses, everything else raises
ValueError (modelled as none). -/
def pyIntOfString (s : String) : Option Int :=
  match s.data with
  | [] => none
  | '-' :: cs => if cs = [] then none else Option.map (fun n => -(n : Int)) (digitsVal 0 cs)
  | '+' :: cs => if cs = [] then none else Option.map (fun n => (n : Int)) (digitsVal 0 cs)
  | cs => Option.map (fun n => (n : Int)) (digitsVal 0 cs)

/-- The int() coercion the handlers apply to model.StepConcurrencyLevel: an
integer passes through, a string is parsed, anything unparsable raises a
ValueError whose text mirrors the Python message. -/
def pyInt : PyVal → Except String Int
  | .int n => .ok n
  | .str s =>
    match pyIntOfString s with
    | some n => .ok n
    | none => .error ("invalid literal for int() with base 10: " ++ s)

/-- The InvalidRequest message produced by the out-of-range branch, spaces
of the Python source line continuation preserved. -/
def rangeMsg (level : Int) : String :=
  "Step Concurency Level must be between 1 and 256,                 " ++ toString level ++ " was given."

/-- The ownership UID Create derives, model.UID = "cluster:" + model.ClusterId. -/
def derivedUID (clusterId : String) : String := "cluster:" ++ clusterId

/-- create_handler of handlers.py. Sets model.UID from ClusterId, coerces
the level with int(), reads the ownership tag, raises AlreadyExists when
the tag equals the derived UID, InvalidRequest when the level is outside
1..256, then issues modify_cluster and add_tags inside a try block whose
failures become InternalFailure "Failed Create: ...". -/
def create_handler (model : ResourceModel)
    (describeRes : Except String Cluster)
    (modifyRes : Except String Unit)
    (addTagsRes : Except String Unit) : Outcome × List EmrCall :=
  let uidStr := derivedUID model.ClusterId
  match pyInt model.StepConcurrencyLevel with
  | .error e => (.rawError e, [])
  | .ok level =>
    let model1 : ResourceModel :=
      { model with UID := some uidStr, StepConcurrencyLevel := PyVal.int level }
    match get_uid describeRes with
    | .error e => (.rawError e, [.describeCluster model.ClusterId])
    | .ok uid =>
      if uid = some uidStr then
        (.handlerErr (.alreadyExists TYPE_NAME model.ClusterId),
         [.describeCluster model.ClusterId])
      else if level < 1 ∨ level > 256 then
        (.handlerErr (.invalidRequest (rangeMsg level)),
         [.describeCluster model.ClusterId])
      else
        match modifyRes with
        | .error e =>
          (.handlerErr (.internalFailure ("Failed Create: " ++ e)),
           [.describeCluster model.ClusterId, .modifyCluster model.ClusterId level])
        | .ok _ =>
          match addTagsRes with
          | .error e =>
            (.handlerErr (.internalFailure ("Failed Create: " ++ e)),
             [.describeCluster model.ClusterId, .modifyCluster model.ClusterId level,
              .addTags model.ClusterId [{ key := "StepConcurrencyUID", value := uidStr }]])
          | .ok _ =>
            (.ok { status := .SUCCESS, resourceModel := some model1 },
             [.describeCluster model.ClusterId, .modifyCluster model.ClusterId level,
              .addTags model.ClusterId [{ key := "StepConcurrencyUID", value := uidStr }]])

/-- update_handler of handlers.py. Coerces the level, rejects a changed UID
with InvalidRequest, rejects an out-of-range level with InvalidRequest,
rejects an ownership tag mismatch with NotFound, then issues
modify_cluster inside a try block whose failures become InternalFailure
"Failed Update: ...". -/
def update_handler (model previous_model : ResourceModel)
    (describeRes : Except String Cluster)
    (modifyRes : Except String Unit) : Outcome × List EmrCall :=
  match pyInt model.StepConcurrencyLevel with
  | .error e => (.rawError e, [])
  | .ok level =>
    let model1 : ResourceModel := { model with StepConcurrencyLevel := PyVal.int level }
    if model1.UID ≠ previous_model.UID then
      (.handlerErr (.invalidRequest "Cannot update the UID"), [])
    else if level < 1 ∨ level > 256 then
      (.handlerErr (.invalidRequest (rangeMsg level)), [])
    else
      match get_uid describeRes with
      | .error e => (.rawError e, [.describeCluster model.ClusterId])
      | .ok uid =>
        if model1.UID ≠ uid then
          (.handlerErr (.notFound TYPE_NAME model.ClusterId),
           [.describeCluster model.ClusterId])
        else
          match modifyRes with
          | .error e =>
            (.handlerErr (.internalFailure ("Failed Update: " ++ e)),
             [.describeCluster model.ClusterId, .modifyCluster model.ClusterId level])
          | .ok _ =>
            (.ok { status := .SUCCESS, resourceModel := some model1 },
             [.describeCluster model.ClusterId, .modifyCluster model.ClusterId level])

/-- delete_handler of handlers.py. Rejects an ownership tag mismatch with
NotFound, then inside a try block issues modify_cluster with the default
level 1, sets the resource model of the progress event to None, issues
remove_tags for the key StepConcurrencyUID, and reports SUCCESS; failures
inside the try become InternalFailure "Failed Delete: ...". -/
def delete_handler (model : ResourceModel)
    (describeRes : Except String Cluster)
    (modifyRes : Except String Unit)
    (removeTagsRes : Except String Unit) : Outcome × List EmrCall :=
  match get_uid describeRes with
  | .error e => (.rawError e, [.describeCluster model.ClusterId])
  | .ok uid =>
    if uid ≠ model.UID then
      (.handlerErr (.notFound TYPE_NAME model.ClusterId),
       [.describeCluster model.ClusterId])
    else
      match modifyRes with
      | .error e =>
        (.handlerErr (.internalFailure ("Failed Delete: " ++ e)),
         [.describeCluster model.ClusterId, .modifyCluster model.ClusterId 1])
      | .ok _ =>
        match removeTagsRes with
        | .error e =>
          (.handlerErr (.internalFailure ("Failed Delete: " ++ e)),
           [.describeCluster model.ClusterId, .modifyCluster model.ClusterId 1,
            .removeTags model.ClusterId ["StepConcurrencyUID"]])
        | .ok _ =>
          (.ok { status := .SUCCESS, resourceModel := none },
           [.describeCluster model.ClusterId, .modifyCluster model.ClusterId 1,
            .removeTags model.ClusterId ["StepConcurrencyUID"]])

/-- read_handler of handlers.py. Rejects an ownership tag mismatch with
NotFound, then inside a try block fetches the live concurrency level via a
second describe call, a failure of which becomes InternalFailure
"Failed Read: ..."; on success returns SUCCESS with the model carrying the
observed level. -/
def read_handler (model : ResourceModel)
    (describeRes1 describeRes2 : Except String Cluster) : Outcome × List EmrCall :=
  match get_uid describeRes1 with
  | .error e => (.rawError e, [.describeCluster model.ClusterId])
  | .ok uid =>
    if model.UID ≠ uid then
      (.handlerErr (.notFound TYPE_NAME model.ClusterId),
       [.describeCluster model.ClusterId])
    else
      match get_concurrency_level describeRes2 with
      | .error e =>
        (.handlerErr (.internalFailure ("Failed Read: " ++ e)),
         [.describeCluster model.ClusterId, .describeCluster model.ClusterId])
      | .ok observed =>
        (.ok { status := .SUCCESS,
               resourceModel := some { model with StepConcurrencyLevel := PyVal.int observed } },
         [.describeCluster model.ClusterId, .describeCluster model.ClusterId])

end EmrStepConcurrency

namespace EmrStepConcurrency

/-- Claim C4: an Update whose declared UID differs from the previous model
UID fails with InvalidRequest "Cannot update the UID", for every describe
result, modify result and coerced level, and issues no remote call at all;
in particular the check precedes the range check and the ownership check. -/
theorem C4_update_rejects_uid_change (model previous_model : ResourceModel) (lvl : Int)
    (describeRes : Except String Cluster) (modifyRes : Except String Unit)
    (hlvl : pyInt model.StepConcurrencyLevel = Except.ok lvl)
    (huid : model.UID ≠ previous_model.UID) :
    (update_handler model previous_model describeRes modifyRes).1
      = Outcome.handlerErr (HandlerError.invalidRequest "Cannot update the UID")
    ∧ (update_handler model previous_model describeRes modifyRes).2 = [] := by
  unfold update_handler
  rw [hlvl]
  simp [huid]

/-- Witness for C4 at a concrete input: level 50 in range, ownership tag
matching, UID changed from "other" to "cluster:j-1". -/
theorem C4_witness :
    (update_handler ⟨"j-1", PyVal.int 50, some "cluster:j-1"⟩
        ⟨"j-1", PyVal.int 10, some "other"⟩
        (Except.ok ⟨[⟨"StepConcurrencyUID", "cluster:j-1"⟩], 10⟩) (Except.ok ())).1
      = Outcome.handlerErr (HandlerError.invalidRequest "Cannot update the UID")
    ∧ (update_handler ⟨"j-1", PyVal.int 50, some "cluster:j-1"⟩
        ⟨"j-1", PyVal.int 10, some "other"⟩
        (Except.ok ⟨[⟨"StepConcurrencyUID", "cluster:j-1"⟩], 10⟩) (Except.ok ())).2 = [] :=
  C4_update_rejects_uid_change _ _ 50 _ _ rfl (by decide)

/-- Claim C5: Delete on a cluster whose ownership tag equals the declared
UID issues modify_cluster with the default level 1 and remove_tags for
exactly the key StepConcurrencyUID, and on success returns SUCCESS with an
absent resource model. -/
theorem C5_delete_resets_and_untags (model : ResourceModel) (c : Cluster)
    (htag : findConcurrencyTag c.tags = model.UID) :
    (delete_handler model (Except.ok c) (Except.ok ()) (Except.ok ())).1
      = Outcome.ok { status := OperationStatus.SUCCESS, resourceModel := none }
    ∧ (delete_handler model (Except.ok c) (Except.ok ()) (Except.ok ())).2
      = [EmrCall.describeCluster model.ClusterId,
         EmrCall.modifyCluster model.ClusterId 1,
         EmrCall.removeTags model.ClusterId ["StepConcurrencyUID"]] := by
  simp [delete_handler, get_uid, htag]

/-- Witness for C5 at a concrete owned cluster. -/
theorem C5_witness :
    (delete_handler ⟨"j-1", PyVal.int 50, some "cluster:j-1"⟩
        (Except.ok ⟨[⟨"StepConcurrencyUID", "cluster:j-1"⟩], 50⟩)
        (Except.ok ()) (Except.ok ())).1
      = Outcome.ok { status := OperationStatus.SUCCESS, resourceModel := none }
    ∧ (delete_handler ⟨"j-1", PyVal.int 50, some "cluster:j-1"⟩
        (Except.ok ⟨[⟨"StepConcurrencyUID", "cluster:j-1"⟩], 50⟩)
        (Except.ok ()) (Except.ok ())).2
      = [EmrCall.describeCluster "j-1",
         EmrCall.modifyCluster "j-1" 1,
         EmrCall.removeTags "j-1" ["StepConcurrencyUID"]] :=
  C5_delete_resets_and_untags _ _ (by decide)

/-- Claim C8: the ownership UID is a pure deterministic function of
ClusterId, every successful Create returns a model whose UID is
"cluster:" + ClusterId, and distinct ClusterId strings yield distinct
UIDs. -/
theorem C8_uid_deterministic_injective (model : ResourceModel)
    (describeRes : Except String Cluster) (modifyRes addTagsRes : Except String Unit)
    (s t : String) (event : ProgressEvent)
    (hok : (create_handler model describeRes modifyRes addTagsRes).1 = Outcome.ok event)
    (hst : s ≠ t) :
    (∃ m1, event.resourceModel = some m1 ∧ m1.UID = some (derivedUID model.ClusterId))
    ∧ derivedUID s = "cluster:" ++ s
    ∧ derivedUID s ≠ derivedUID t := by
  refine ⟨?_, rfl, ?_⟩
  · cases hpy : pyInt model.StepConcurrencyLevel with
    | error e =>
      rw [create_handler] at hok
      rw [hpy] at hok
      simp at hok
    | ok lvl =>
      cases describeRes with
      | error e =>
        rw [create_handler] at hok
        rw [hpy] at hok
        simp [get_uid] at hok
      | ok c =>
        rw [create_handler] at hok
        rw [hpy] at hok
        simp only [get_uid] at hok
        split at hok
        · simp at hok
        · split at hok
          · simp at hok
          · cases modifyRes with
            | error e => simp at hok
            | ok u =>
              cases addTagsRes with
              | error e => simp at hok
              | ok u2 =>
                simp at hok
                exact ⟨_, by rw [← hok], rfl⟩
  · intro h
    apply hst
    have h2 := congrArg String.data h
    simp [derivedUID, String.data_append] at h2
    exact String.ext h2

/-- Witness for C8: a concrete successful Create on an unclaimed cluster,
with distinct ClusterId strings "a" and "b". -/
theorem C8_witness :
    (∃ m1, (ProgressEvent.mk OperationStatus.SUCCESS
        (some ⟨"j-1", PyVal.int 50, some "cluster:j-1"⟩)).resourceModel = some m1
        ∧ m1.UID = some (derivedUID "j-1"))
    ∧ derivedUID "a" = "cluster:" ++ "a"
    ∧ derivedUID "a" ≠ derivedUID "b" :=
  C8_uid_deterministic_injective ⟨"j-1", PyVal.int 50, none⟩ (Except.ok ⟨[], 5⟩)
    (Except.ok ()) (Except.ok ()) "a" "b"
    (ProgressEvent.mk OperationStatus.SUCCESS
      (some ⟨"j-1", PyVal.int 50, some "cluster:j-1"⟩))
    (by decide) (by decide)

end EmrStepConcurrency

namespace EmrStepConcurrency

/-- Claim C2: Create fails with AlreadyExists exactly when the observed
ownership tag equals the UID derived from the declared ClusterId; an
absent tag or any other value lets Create proceed past that check. -/
theorem C2_create_alreadyExists_iff (model : ResourceModel) (c : Cluster) (lvl : Int)
    (modifyRes addTagsRes : Except String Unit)
    (hlvl : pyInt model.StepConcurrencyLevel = Except.ok lvl) :
    (create_handler model (Except.ok c) modifyRes addTagsRes).1
      = Outcome.handlerErr (HandlerError.alreadyExists TYPE_NAME model.ClusterId)
    ↔ findConcurrencyTag c.tags = some (derivedUID model.ClusterId) := by
  simp only [create_handler, hlvl, get_uid]
  by_cases htag : findConcurrencyTag c.tags = some (derivedUID model.ClusterId)
  · simp [htag]
  · by_cases hr : lvl < 1 ∨ lvl > 256
    · simp [htag, hr]
    · cases modifyRes <;> cases addTagsRes <;> simp [htag, hr]

/-- Witness for C2: AlreadyExists on a cluster already tagged with the
derived UID, via the forward direction of the equivalence at level 50. -/
theorem C2_witness :
    ((create_handler ⟨"j-1", PyVal.int 50, none⟩
        (Except.ok ⟨[⟨"StepConcurrencyUID", "cluster:j-1"⟩], 5⟩)
        (Except.ok ()) (Except.ok ())).1
      = Outcome.handlerErr (HandlerError.alreadyExists TYPE_NAME "j-1")
    ↔ findConcurrencyTag [⟨"StepConcurrencyUID", "cluster:j-1"⟩]
      = some (derivedUID "j-1")) :=
  C2_create_alreadyExists_iff ⟨"j-1", PyVal.int 50, none⟩
    ⟨[⟨"StepConcurrencyUID", "cluster:j-1"⟩], 5⟩ 50 (Except.ok ()) (Except.ok ()) rfl

/-- Claim C3 counterexample: a Create with out-of-range level 0 on a
cluster whose tag already equals the derived UID raises AlreadyExists,
not InvalidRequest, because the AlreadyExists check runs first. -/
theorem C3_counterexample :
    (create_handler ⟨"j-1", PyVal.int 0, none⟩
        (Except.ok ⟨[⟨"StepConcurrencyUID", "cluster:j-1"⟩], 5⟩)
        (Except.ok ()) (Except.ok ())).1
      = Outcome.handlerErr (HandlerError.alreadyExists TYPE_NAME "j-1")
    ∧ Outcome.isInvalidRequest
        ((create_handler ⟨"j-1", PyVal.int 0, none⟩
            (Except.ok ⟨[⟨"StepConcurrencyUID", "cluster:j-1"⟩], 5⟩)
            (Except.ok ()) (Except.ok ())).1) = false := by
  decide

/-- Claim C3 as amended: provided the checks that precede the range
validation pass (for Create the observed tag differs from the derived UID,
for Update the declared UID equals the previous UID), Create and Update
raise InvalidRequest exactly when the coerced level is strictly below 1 or
strictly above 256; boundary levels 1 and 256 are accepted. -/
theorem C3_range_validation (model previous_model : ResourceModel) (c : Cluster) (lvl : Int)
    (modifyRes addTagsRes : Except String Unit)
    (hlvl : pyInt model.StepConcurrencyLevel = Except.ok lvl)
    (hnoclaim : findConcurrencyTag c.tags ≠ some (derivedUID model.ClusterId))
    (huid : model.UID = previous_model.UID) :
    (Outcome.isInvalidRequest (create_handler model (Except.ok c) modifyRes addTagsRes).1 = true
      ↔ (lvl < 1 ∨ lvl > 256))
    ∧ (Outcome.isInvalidRequest (update_handler model previous_model (Except.ok c) modifyRes).1 = true
      ↔ (lvl < 1 ∨ lvl > 256)) := by
  constructor
  · simp only [create_handler, hlvl, get_uid]
    by_cases hr : lvl < 1 ∨ lvl > 256
    · simp [hnoclaim, hr, Outcome.isInvalidRequest]
    · cases modifyRes <;> cases addTagsRes <;>
        simp [hnoclaim, hr, Outcome.isInvalidRequest]
  · simp only [update_handler, hlvl, get_uid]
    by_cases hr : lvl < 1 ∨ lvl > 256
    · simp [huid, hr, Outcome.isInvalidRequest]
    · by_cases hown : previous_model.UID = findConcurrencyTag c.tags
      · cases modifyRes <;> simp [huid, hr, hown, Outcome.isInvalidRequest]
      · cases modifyRes <;> simp [huid, hr, hown, Outcome.isInvalidRequest]

/-- Witness for C3 as amended: level 257 is rejected by both Create and
Update on an unclaimed cluster with an unchanged UID. -/
theorem C3_witness :
    (Outcome.isInvalidRequest
        (create_handler ⟨"j-1", PyVal.int 257, none⟩ (Except.ok ⟨[], 5⟩)
          (Except.ok ()) (Except.ok ())).1 = true
      ↔ ((257 : Int) < 1 ∨ (257 : Int) > 256))
    ∧ (Outcome.isInvalidRequest
        (update_handler ⟨"j-1", PyVal.int 257, none⟩ ⟨"j-1", PyVal.int 1, none⟩
          (Except.ok ⟨[], 5⟩) (Except.ok ())).1 = true
      ↔ ((257 : Int) < 1 ∨ (257 : Int) > 256)) :=
  C3_range_validation ⟨"j-1", PyVal.int 257, none⟩ ⟨"j-1", PyVal.int 1, none⟩
    ⟨[], 5⟩ 257 (Except.ok ()) (Except.ok ()) rfl (by decide) rfl

/-- Claim C1: with the describe call succeeding (and for Update the UID
and range validations passing), Read, Update and Delete fail with
NotFound exactly when the observed ownership tag differs from the
declared UID, and in that case no mutating remote call is issued. -/
theorem C1_notFound_iff_tag_mismatch (model previous_model : ResourceModel)
    (c : Cluster) (lvl : Int) (describeRes2 : Except String Cluster)
    (modifyRes removeTagsRes : Except String Unit)
    (hlvl : pyInt model.StepConcurrencyLevel = Except.ok lvl)
    (huid : model.UID = previous_model.UID)
    (hrange : ¬(lvl < 1 ∨ lvl > 256)) :
    ((read_handler model (Except.ok c) describeRes2).1
        = Outcome.handlerErr (HandlerError.notFound TYPE_NAME model.ClusterId)
      ↔ findConcurrencyTag c.tags ≠ model.UID)
    ∧ ((update_handler model previous_model (Except.ok c) modifyRes).1
        = Outcome.handlerErr (HandlerError.notFound TYPE_NAME model.ClusterId)
      ↔ findConcurrencyTag c.tags ≠ model.UID)
    ∧ ((delete_handler model (Except.ok c) modifyRes removeTagsRes).1
        = Outcome.handlerErr (HandlerError.notFound TYPE_NAME model.ClusterId)
      ↔ findConcurrencyTag c.tags ≠ model.UID)
    ∧ (findConcurrencyTag c.tags ≠ model.UID →
        (read_handler model (Except.ok c) describeRes2).2.filter isMutating = []
        ∧ (update_handler model previous_model (Except.ok c) modifyRes).2.filter isMutating = []
        ∧ (delete_handler model (Except.ok c) modifyRes removeTagsRes).2.filter isMutating = []) := by
  have h1 : ¬ (model.UID ≠ previous_model.UID) := by simp [huid]
  by_cases htag : findConcurrencyTag c.tags = model.UID
  · have h3 : ¬ (model.UID ≠ findConcurrencyTag c.tags) := by simp [htag]
    refine ⟨?_, ?_, ?_, fun hne => absurd htag hne⟩
    · cases describeRes2 with
      | error e => simp [read_handler, get_uid, get_concurrency_level, htag, h3]
      | ok c2 => simp [read_handler, get_uid, get_concurrency_level, htag, h3]
    · cases modifyRes <;>
        simp [update_handler, hlvl, get_uid, h1, hrange, htag, h3]
    · cases modifyRes <;> cases removeTagsRes <;>
        simp [delete_handler, get_uid, htag]
  · have h3 : ¬ (model.UID = findConcurrencyTag c.tags) := fun h => htag h.symm
    refine ⟨?_, ?_, ?_, fun _ => ?_⟩
    · simp [read_handler, get_uid, htag, h3]
    · simp [update_handler, hlvl, get_uid, h1, hrange, htag, h3]
    · simp [delete_handler, get_uid, htag]
    · refine ⟨?_, ?_, ?_⟩
      · simp [read_handler, get_uid, htag, h3, isMutating]
      · simp [update_handler, hlvl, get_uid, h1, hrange, htag, h3, isMutating]
      · simp [delete_handler, get_uid, htag, isMutating]

/-- Witness for C1 at a concrete input: declared UID cluster:j-1, observed
tag value other, level 50 in range. -/
theorem C1_witness :
    ((read_handler ⟨"j-1", PyVal.int 50, some "cluster:j-1"⟩
        (Except.ok ⟨[⟨"StepConcurrencyUID", "other"⟩], 5⟩) (Except.ok ⟨[], 5⟩)).1
      = Outcome.handlerErr (HandlerError.notFound TYPE_NAME "j-1")
      ↔ findConcurrencyTag [⟨"StepConcurrencyUID", "other"⟩] ≠ some "cluster:j-1")
    ∧ ((update_handler ⟨"j-1", PyVal.int 50, some "cluster:j-1"⟩
        ⟨"j-1", PyVal.int 10, some "cluster:j-1"⟩
        (Except.ok ⟨[⟨"StepConcurrencyUID", "other"⟩], 5⟩) (Except.ok ())).1
      = Outcome.handlerErr (HandlerError.notFound TYPE_NAME "j-1")
      ↔ findConcurrencyTag [⟨"StepConcurrencyUID", "other"⟩] ≠ some "cluster:j-1")
    ∧ ((delete_handler ⟨"j-1", PyVal.int 50, some "cluster:j-1"⟩
        (Except.ok ⟨[⟨"StepConcurrencyUID", "other"⟩], 5⟩)
        (Except.ok ()) (Except.ok ())).1
      = Outcome.handlerErr (HandlerError.notFound TYPE_NAME "j-1")
      ↔ findConcurrencyTag [⟨"StepConcurrencyUID", "other"⟩] ≠ some "cluster:j-1")
    ∧ (findConcurrencyTag [⟨"StepConcurrencyUID", "other"⟩] ≠ some "cluster:j-1" →
        (read_handler ⟨"j-1", PyVal.int 50, some "cluster:j-1"⟩
          (Except.ok ⟨[⟨"StepConcurrencyUID", "other"⟩], 5⟩)
          (Except.ok ⟨[], 5⟩)).2.filter isMutating = []
        ∧ (update_handler ⟨"j-1", PyVal.int 50, some "cluster:j-1"⟩
            ⟨"j-1", PyVal.int 10, some "cluster:j-1"⟩
            (Except.ok ⟨[⟨"StepConcurrencyUID", "other"⟩], 5⟩)
            (Except.ok ())).2.filter isMutating = []
        ∧ (delete_handler ⟨"j-1", PyVal.int 50, some "cluster:j-1"⟩
            (Except.ok ⟨[⟨"StepConcurrencyUID", "other"⟩], 5⟩)
            (Except.ok ()) (Except.ok ())).2.filter isMutating = []) :=
  C1_notFound_iff_tag_mismatch ⟨"j-1", PyVal.int 50, some "cluster:j-1"⟩
    ⟨"j-1", PyVal.int 10, some "cluster:j-1"⟩
    ⟨[⟨"StepConcurrencyUID", "other"⟩], 5⟩ 50 (Except.ok ⟨[], 5⟩)
    (Except.ok ()) (Except.ok ()) rfl rfl (by decide)

end EmrStepConcurrency

namespace EmrStepConcurrency

/-- Claim C6: whenever any of the four handlers rejects a request with
AlreadyExists, InvalidRequest or NotFound, no mutating remote call
(modify_cluster, add_tags or remove_tags) has been issued. -/
theorem C6_rejection_before_mutation (model previous_model : ResourceModel)
    (describeRes describeRes2 : Except String Cluster)
    (modifyRes addTagsRes removeTagsRes : Except String Unit) :
    ((create_handler model describeRes modifyRes addTagsRes).1.isRejection = true →
      (create_handler model describeRes modifyRes addTagsRes).2.filter isMutating = [])
    ∧ ((read_handler model describeRes describeRes2).1.isRejection = true →
      (read_handler model describeRes describeRes2).2.filter isMutating = [])
    ∧ ((update_handler model previous_model describeRes modifyRes).1.isRejection = true →
      (update_handler model previous_model describeRes modifyRes).2.filter isMutating = [])
    ∧ ((delete_handler model describeRes modifyRes removeTagsRes).1.isRejection = true →
      (delete_handler model describeRes modifyRes removeTagsRes).2.filter isMutating = []) := by
  refine ⟨?_, ?_, ?_, ?_⟩
  · cases hpy : pyInt model.StepConcurrencyLevel with
    | error e => simp [create_handler, hpy, Outcome.isRejection]
    | ok lvl =>
      cases describeRes with
      | error e => simp [create_handler, hpy, get_uid, Outcome.isRejection]
      | ok c =>
        by_cases htag : findConcurrencyTag c.tags = some (derivedUID model.ClusterId)
        · simp [create_handler, hpy, get_uid, htag, isMutating]
        · by_cases hr : lvl < 1 ∨ lvl > 256
          · simp [create_handler, hpy, get_uid, htag, hr, isMutating]
          · cases modifyRes <;> cases addTagsRes <;>
              simp [create_handler, hpy, get_uid, htag, hr, Outcome.isRejection]
  · cases describeRes with
    | error e => simp [read_handler, get_uid, Outcome.isRejection]
    | ok c =>
      by_cases hown : model.UID = findConcurrencyTag c.tags
      · have h3 : ¬ (model.UID ≠ findConcurrencyTag c.tags) := by simp [hown]
        cases describeRes2 with
        | error e =>
          simp [read_handler, get_uid, get_concurrency_level, h3, Outcome.isRejection]
        | ok c2 =>
          simp [read_handler, get_uid, get_concurrency_level, h3, Outcome.isRejection]
      · simp [read_handler, get_uid, hown, isMutating]
  · cases hpy : pyInt model.StepConcurrencyLevel with
    | error e => simp [update_handler, hpy, Outcome.isRejection]
    | ok lvl =>
      by_cases huid : model.UID = previous_model.UID
      · have h1 : ¬ (model.UID ≠ previous_model.UID) := by simp [huid]
        by_cases hr : lvl < 1 ∨ lvl > 256
        · simp [update_handler, hpy, h1, hr, isMutating]
        · cases describeRes with
          | error e => simp [update_handler, hpy, get_uid, h1, hr, Outcome.isRejection]
          | ok c =>
            by_cases hown : model.UID = findConcurrencyTag c.tags
            · have h3 : ¬ (model.UID ≠ findConcurrencyTag c.tags) := by simp [hown]
              cases modifyRes <;>
                simp [update_handler, hpy, get_uid, h1, hr, h3, Outcome.isRejection]
            · simp [update_handler, hpy, get_uid, h1, hr, hown, isMutating]
      · simp [update_handler, hpy, huid, isMutating]
  · cases describeRes with
    | error e => simp [delete_handler, get_uid, Outcome.isRejection]
    | ok c =>
      by_cases hown : findConcurrencyTag c.tags = model.UID
      · have h3 : ¬ (findConcurrencyTag c.tags ≠ model.UID) := by simp [hown]
        cases modifyRes <;> cases removeTagsRes <;>
          simp [delete_handler, get_uid, h3, Outcome.isRejection]
      · simp [delete_handler, get_uid, hown, isMutating]

/-- Witness for C6: a Delete rejected with NotFound (declared UID set, no
tag on the cluster) has issued no mutating call. -/
theorem C6_witness :
    (delete_handler ⟨"j-1", PyVal.int 50, some "cluster:j-1"⟩
        (Except.ok ⟨[], 5⟩) (Except.ok ()) (Except.ok ())).2.filter isMutating = [] :=
  (C6_rejection_before_mutation ⟨"j-1", PyVal.int 50, some "cluster:j-1"⟩
      ⟨"j-1", PyVal.int 10, some "cluster:j-1"⟩ (Except.ok ⟨[], 5⟩)
      (Except.ok ⟨[], 5⟩) (Except.ok ()) (Except.ok ()) (Except.ok ())).2.2.2
    (by decide)

/-- Claim C7 counterexample: a Delete whose describe call fails with
"boom" propagates the raw error unwrapped, not an InternalFailure
containing "Failed Delete", because get_uid is called outside the try
block. -/
theorem C7_counterexample :
    (delete_handler ⟨"j-1", PyVal.int 50, some "cluster:j-1"⟩
        (Except.error "boom") (Except.ok ()) (Except.ok ())).1
      = Outcome.rawError "boom"
    ∧ Outcome.isInternalFailure
        ((delete_handler ⟨"j-1", PyVal.int 50, some "cluster:j-1"⟩
            (Except.error "boom") (Except.ok ()) (Except.ok ())).1) = false := by
  decide

/-- Claim C7 as amended: failures of the remote calls issued inside the
try block of each handler (the mutate and tag calls, and for Read the
describe call fetching the level) become InternalFailure with message
"Failed Create", "Failed Read", "Failed Update" or "Failed Delete"
followed by the underlying error text; a failure of the describe call
used to read the ownership tag propagates as the raw error in all four
handlers instead. -/
theorem C7_failure_wrapping (model previous_model : ResourceModel)
    (c : Cluster) (lvl : Int) (e : String)
    (describeRes2 : Except String Cluster)
    (modifyRes addTagsRes removeTagsRes : Except String Unit)
    (hlvl : pyInt model.StepConcurrencyLevel = Except.ok lvl)
    (huid : model.UID = previous_model.UID)
    (hrange : ¬(lvl < 1 ∨ lvl > 256))
    (hown : findConcurrencyTag c.tags = model.UID)
    (hnoclaim : findConcurrencyTag c.tags ≠ some (derivedUID model.ClusterId)) :
    (create_handler model (Except.error e) modifyRes addTagsRes).1 = Outcome.rawError e
    ∧ (read_handler model (Except.error e) describeRes2).1 = Outcome.rawError e
    ∧ (update_handler model previous_model (Except.error e) modifyRes).1 = Outcome.rawError e
    ∧ (delete_handler model (Except.error e) modifyRes removeTagsRes).1 = Outcome.rawError e
    ∧ (create_handler model (Except.ok c) (Except.error e) addTagsRes).1
      = Outcome.handlerErr (HandlerError.internalFailure ("Failed Create: " ++ e))
    ∧ (create_handler model (Except.ok c) (Except.ok ()) (Except.error e)).1
      = Outcome.handlerErr (HandlerError.internalFailure ("Failed Create: " ++ e))
    ∧ (update_handler model previous_model (Except.ok c) (Except.error e)).1
      = Outcome.handlerErr (HandlerError.internalFailure ("Failed Update: " ++ e))
    ∧ (delete_handler model (Except.ok c) (Except.error e) removeTagsRes).1
      = Outcome.handlerErr (HandlerError.internalFailure ("Failed Delete: " ++ e))
    ∧ (delete_handler model (Except.ok c) (Except.ok ()) (Except.error e)).1
      = Outcome.handlerErr (HandlerError.internalFailure ("Failed Delete: " ++ e))
    ∧ (read_handler model (Except.ok c) (Except.error e)).1
      = Outcome.handlerErr (HandlerError.internalFailure ("Failed Read: " ++ e)) := by
  have h1 : ¬ (model.UID ≠ previous_model.UID) := by simp [huid]
  have h3 : ¬ (model.UID ≠ findConcurrencyTag c.tags) := by simp [hown]
  have h4 : ¬ (findConcurrencyTag c.tags ≠ model.UID) := by simp [hown]
  refine ⟨?_, ?_, ?_, ?_, ?_, ?_, ?_, ?_, ?_, ?_⟩
  · simp [create_handler, hlvl, get_uid]
  · simp [read_handler, get_uid]
  · simp [update_handler, hlvl, get_uid, h1, hrange]
  · simp [delete_handler, get_uid]
  · simp [create_handler, hlvl, get_uid, hnoclaim, hrange]
  · simp [create_handler, hlvl, get_uid, hnoclaim, hrange]
  · simp [update_handler, hlvl, get_uid, h1, hrange, h3]
  · simp [delete_handler, get_uid, h4]
  · simp [delete_handler, get_uid, h4]
  · simp [read_handler, get_uid, get_concurrency_level, h3]

/-- Witness for C7 as amended: an Update whose modify call fails with
"boom" on an owned cluster reports InternalFailure "Failed Update: boom". -/
theorem C7_witness :
    (update_handler ⟨"j-1", PyVal.int 50, some "x"⟩ ⟨"j-1", PyVal.int 10, some "x"⟩
        (Except.ok ⟨[⟨"StepConcurrencyUID", "x"⟩], 7⟩) (Except.error "boom")).1
      = Outcome.handlerErr (HandlerError.internalFailure ("Failed Update: " ++ "boom")) :=
  (C7_failure_wrapping ⟨"j-1", PyVal.int 50, some "x"⟩ ⟨"j-1", PyVal.int 10, some "x"⟩
      ⟨[⟨"StepConcurrencyUID", "x"⟩], 7⟩ 50 "boom" (Except.ok ⟨[], 5⟩)
      (Except.error "boom") (Except.ok ()) (Except.ok ())
      rfl rfl (by decide) (by decide) (by decide)).2.2.2.2.2.2.1

end EmrStepConcurrency

namespace EmrStepConcurrency

/-- Claim C9: when the declared model carries no UID and the cluster
carries no StepConcurrencyUID tag, the ownership comparison passes
(absent equals absent) and Read, Update and Delete proceed instead of
failing with NotFound; Delete in particular resets the level to 1 and
issues tag removal on a cluster the provider never claimed. -/
theorem C9_absent_uid_absent_tag (model previous_model : ResourceModel)
    (c c2 : Cluster) (lvl : Int)
    (hUID : model.UID = none)
    (hprev : previous_model.UID = none)
    (htag : findConcurrencyTag c.tags = none)
    (hlvl : pyInt model.StepConcurrencyLevel = Except.ok lvl)
    (hrange : ¬(lvl < 1 ∨ lvl > 256)) :
    (delete_handler model (Except.ok c) (Except.ok ()) (Except.ok ())).1
      = Outcome.ok { status := OperationStatus.SUCCESS, resourceModel := none }
    ∧ (delete_handler model (Except.ok c) (Except.ok ()) (Except.ok ())).2
      = [EmrCall.describeCluster model.ClusterId,
         EmrCall.modifyCluster model.ClusterId 1,
         EmrCall.removeTags model.ClusterId ["StepConcurrencyUID"]]
    ∧ (read_handler model (Except.ok c) (Except.ok c2)).1
      = Outcome.ok ⟨OperationStatus.SUCCESS,
          some { model with StepConcurrencyLevel := PyVal.int c2.stepConcurrencyLevel }⟩
    ∧ (update_handler model previous_model (Except.ok c) (Except.ok ())).1
      = Outcome.ok ⟨OperationStatus.SUCCESS,
          some { model with StepConcurrencyLevel := PyVal.int lvl }⟩ := by
  have h1 : ¬ (model.UID ≠ previous_model.UID) := by simp [hUID, hprev]
  have h3 : ¬ (model.UID ≠ findConcurrencyTag c.tags) := by simp [hUID, htag]
  have h4 : ¬ (findConcurrencyTag c.tags ≠ model.UID) := by simp [hUID, htag]
  refine ⟨?_, ?_, ?_, ?_⟩
  · simp [delete_handler, get_uid, h4]
  · simp [delete_handler, get_uid, h4]
  · simp [read_handler, get_uid, get_concurrency_level, h3]
  · simp [update_handler, hlvl, get_uid, h1, hrange, h3]

/-- Witness for C9: a Delete with no declared UID on an untagged cluster
succeeds and issues the reset and tag-removal calls. -/
theorem C9_witness :
    (delete_handler ⟨"j-1", PyVal.int 50, none⟩
        (Except.ok ⟨[], 7⟩) (Except.ok ()) (Except.ok ())).1
      = Outcome.ok { status := OperationStatus.SUCCESS, resourceModel := none }
    ∧ (delete_handler ⟨"j-1", PyVal.int 50, none⟩
        (Except.ok ⟨[], 7⟩) (Except.ok ()) (Except.ok ())).2
      = [EmrCall.describeCluster "j-1",
         EmrCall.modifyCluster "j-1" 1,
         EmrCall.removeTags "j-1" ["StepConcurrencyUID"]]
    ∧ (read_handler ⟨"j-1", PyVal.int 50, none⟩
        (Except.ok ⟨[], 7⟩) (Except.ok ⟨[], 9⟩)).1
      = Outcome.ok ⟨OperationStatus.SUCCESS, some ⟨"j-1", PyVal.int 9, none⟩⟩
    ∧ (update_handler ⟨"j-1", PyVal.int 50, none⟩ ⟨"j-1", PyVal.int 10, none⟩
        (Except.ok ⟨[], 7⟩) (Except.ok ())).1
      = Outcome.ok ⟨OperationStatus.SUCCESS, some ⟨"j-1", PyVal.int 50, none⟩⟩ :=
  C9_absent_uid_absent_tag ⟨"j-1", PyVal.int 50, none⟩ ⟨"j-1", PyVal.int 10, none⟩
    ⟨[], 7⟩ ⟨[], 9⟩ 50 rfl rfl rfl rfl (by decide)

/-- Claim C10: the int() coercion runs before any validation, so a Create
or Update whose declared level is an integer-valued string behaves
exactly as with the integer itself; an unconvertible string raises the
raw ValueError, which is neither InvalidRequest nor InternalFailure, with
no remote call issued. -/
theorem C10_int_coercion (model previous_model : ResourceModel) (s : String) (n : Int)
    (describeRes : Except String Cluster) (modifyRes addTagsRes : Except String Unit) :
    (pyIntOfString s = some n →
      create_handler { model with StepConcurrencyLevel := PyVal.str s }
          describeRes modifyRes addTagsRes
        = create_handler { model with StepConcurrencyLevel := PyVal.int n }
          describeRes modifyRes addTagsRes
      ∧ update_handler { model with StepConcurrencyLevel := PyVal.str s }
          previous_model describeRes modifyRes
        = update_handler { model with StepConcurrencyLevel := PyVal.int n }
          previous_model describeRes modifyRes)
    ∧ (pyIntOfString s = none →
      (create_handler { model with StepConcurrencyLevel := PyVal.str s }
          describeRes modifyRes addTagsRes).1
        = Outcome.rawError ("invalid literal for int() with base 10: " ++ s)
      ∧ (create_handler { model with StepConcurrencyLevel := PyVal.str s }
          describeRes modifyRes addTagsRes).2 = []
      ∧ (update_handler { model with StepConcurrencyLevel := PyVal.str s }
          previous_model describeRes modifyRes).1
        = Outcome.rawError ("invalid literal for int() with base 10: " ++ s)
      ∧ (update_handler { model with StepConcurrencyLevel := PyVal.str s }
          previous_model describeRes modifyRes).2 = []) := by
  constructor
  · intro hpar
    constructor
    · simp [create_handler, pyInt, hpar]
    · simp [update_handler, pyInt, hpar]
  · intro hnone
    refine ⟨?_, ?_, ?_, ?_⟩
    · simp [create_handler, pyInt, hnone]
    · simp [create_handler, pyInt, hnone]
    · simp [update_handler, pyInt, hnone]
    · simp [update_handler, pyInt, hnone]

/-- Witness for C10: the string "50" behaves as the integer 50 in Create,
and the string "abc" raises the raw conversion error with no call issued. -/
theorem C10_witness :
    (create_handler ⟨"j-1", PyVal.str "50", none⟩ (Except.ok ⟨[], 5⟩)
        (Except.ok ()) (Except.ok ())
      = create_handler ⟨"j-1", PyVal.int 50, none⟩ (Except.ok ⟨[], 5⟩)
        (Except.ok ()) (Except.ok ()))
    ∧ (create_handler ⟨"j-1", PyVal.str "abc", none⟩ (Except.ok ⟨[], 5⟩)
        (Except.ok ()) (Except.ok ())).1
      = Outcome.rawError ("invalid literal for int() with base 10: " ++ "abc") :=
  ⟨((C10_int_coercion ⟨"j-1", PyVal.str "50", none⟩ ⟨"j-1", PyVal.int 1, none⟩
        "50" 50 (Except.ok ⟨[], 5⟩) (Except.ok ()) (Except.ok ())).1
      (by decide)).1,
   ((C10_int_coercion ⟨"j-1", PyVal.str "abc", none⟩ ⟨"j-1", PyVal.int 1, none⟩
        "abc" 0 (Except.ok ⟨[], 5⟩) (Except.ok ()) (Except.ok ())).2
      (by decide)).1⟩

end EmrStepConcurrency
